import Mathlib

/-!
Verification of the resilient call layer, the two caches and the batch
orchestrator of the music-organizer repository.

The Python sources are shallowly embedded: each Lean definition mirrors one
function of the repository (file and line references are given next to each
definition).  External effects (the remote completion service, the random
number generator, the filesystem stat calls and the SQLite queries) are passed
in explicitly as data, so that every definition is executable and every claim
can be evaluated on concrete inputs.
-/

namespace MusicOrganizer

/-! ## Resilient API client (src/api/client.py)

`ResilientAPIClient.get_structured_response` (lines 66-285) runs a loop
`for attempt in range(self.max_retries + 1)`.  Each iteration issues one
remote call whose classified outcome is one of: a structurally successful
response whose content is then JSON-decoded and schema-validated, a
rate-limit error, a timeout, a status error carrying an HTTP code, or any
other exception.  The environment `env : Nat -> AttemptOutcome` gives the
outcome of the remote call made at each attempt index, and
`rand : Nat -> Rat` gives the value drawn from `random.random()` at each
attempt (used by `_calculate_backoff_delay`).  Floating point arithmetic of
the source is modelled with rationals. -/

/-- Constructor arguments of `ResilientAPIClient.__init__` (client.py 36-58);
the defaults are `max_retries=3, base_delay=1.0, max_delay=60.0, timeout=30.0`. -/
structure ClientConfig where
  max_retries : Nat
  base_delay : ℚ
  max_delay : ℚ
  timeout : ℚ
deriving DecidableEq

/-- Outcome of decoding the content of a structurally successful response
(client.py 194-239).  `valid` means `json.loads` and `model_validate` both
succeed.  `jsonDecodeError rep` means `json.loads` raised; `rep` describes the
repair pass `_attempt_json_repair`: `none` when the repair call returned no
usable text, `some none` when the repaired text again failed to parse or
validate, and `some (some a)` when the repaired text parsed and validated to
`a`.  `schemaInvalid` means `json.loads` succeeded but `model_validate`
raised `ValidationError`. -/
inductive ContentOutcome (α : Type) where
  | valid (payload : α)
  | jsonDecodeError (rep : Option (Option α))
  | schemaInvalid
deriving DecidableEq

/-- Classified outcome of one remote call, matching the `except` clauses of
client.py 241-281: `openai.RateLimitError` (with the optional `retry_after`
attribute of the exception), `openai.APITimeoutError`, `openai.APIStatusError`
(with its `status_code`), and the catch-all `except Exception`. -/
inductive AttemptOutcome (α : Type) where
  | content (c : ContentOutcome α)
  | rateLimited (retry_after : Option ℚ)
  | requestTimeout
  | statusError (status_code : Nat)
  | otherError
deriving DecidableEq

deriving instance DecidableEq for Except

/-- Typed failures raised by `get_structured_response`, mirroring
`utils/exceptions.py`: `APIRateLimitError(retry_after)`,
`APITimeoutError(timeout_seconds)`, `APICommunicationError` (optionally with a
status code), `APISchemaError` and `JSONParseError`. -/
inductive CallFailure where
  | rateLimitError (retry_after : ℚ)
  | timeoutError (timeout_seconds : ℚ)
  | communicationError (status_code : Option Nat)
  | apiSchemaError
  | jsonParseError
deriving DecidableEq

/-- Observable trace of one `get_structured_response` invocation:
how many remote calls `self.client.chat.completions.create` were issued
(including the extra call made by `_attempt_json_repair`), the successive
arguments of `time.sleep`, and the deltas applied to the
`successful_requests` and `retried_requests` counters. -/
structure CallTrace where
  remoteCalls : Nat
  waits : List ℚ
  dSuccessful : Nat
  dRetried : Nat
deriving DecidableEq

/-- Trace of a successful return (client.py 199-204 and 216-221): the
`successful_requests` counter gains one, and `retried_requests` gains one
exactly when `attempt > 0`. -/
def successTrace (calls attempt : Nat) : CallTrace :=
  ⟨calls, [], 1, if 0 < attempt then 1 else 0⟩

/-- Trace of an attempt that raises a typed error: no counter changes. -/
def failureTrace (calls : Nat) : CallTrace :=
  ⟨calls, [], 0, 0⟩

/-- Prepend the remote calls and the optional `time.sleep` of the current
attempt to the trace of the remaining attempts. -/
def addCallsWait (calls : Nat) (wait : Option ℚ)
    (p : Except CallFailure α × CallTrace) : Except CallFailure α × CallTrace :=
  (p.1,
    ⟨calls + p.2.remoteCalls,
      (match wait with
        | none => p.2.waits
        | some w => w :: p.2.waits),
      p.2.dSuccessful, p.2.dRetried⟩)

/-- Python expression `getattr(e, "retry_after", None) or 60` of client.py
242: `None` and the falsy value `0` both fall back to `60`. -/
def orElse60 : Option ℚ → ℚ
  | none => 60
  | some t => if t = 0 then 60 else t

/-- `ResilientAPIClient._calculate_backoff_delay` (client.py 408-419):
`delay = base_delay * 2 ** attempt`, `jitter = delay * 0.25 * random.random()`
and the result is `min(delay + jitter, max_delay)`. -/
def calculate_backoff_delay (cfg : ClientConfig) (rand : ℚ) (attempt : Nat) : ℚ :=
  min (cfg.base_delay * 2 ^ attempt + cfg.base_delay * 2 ^ attempt * (1 / 4) * rand)
    cfg.max_delay

/-- Decision taken by one non-final loop iteration (`attempt < max_retries`):
either the loop terminates with a result, or it performs `calls` remote calls,
optionally sleeps, and continues with the next attempt. -/
inductive StepOutcome (α : Type) where
  | finished (res : Except CallFailure α × CallTrace)
  | retryAfterWait (calls : Nat) (wait : Option ℚ)

/-- One iteration of the loop of `get_structured_response` when further
attempts remain (`attempt < self.max_retries`), per client.py 105-281:
a validated payload returns immediately; a JSON decode error triggers the
repair call (one extra remote call) and, if the repair fails, continues the
loop without sleeping; a `ValidationError` continues the loop without
sleeping; a rate limit sleeps the advised interval (with the `or 60`
fallback); a timeout, a 5xx status or an unexpected exception sleep the
exponential backoff; a non-5xx status error raises immediately. -/
def attemptStep (cfg : ClientConfig) (out : AttemptOutcome α) (rand : ℚ)
    (attempt : Nat) : StepOutcome α :=
  match out with
  | .content (.valid a) => .finished (.ok a, successTrace 1 attempt)
  | .content (.jsonDecodeError (some (some a))) => .finished (.ok a, successTrace 2 attempt)
  | .content (.jsonDecodeError _) => .retryAfterWait 2 none
  | .content .schemaInvalid => .retryAfterWait 1 none
  | .rateLimited adv => .retryAfterWait 1 (some (orElse60 adv))
  | .requestTimeout => .retryAfterWait 1 (some (calculate_backoff_delay cfg rand attempt))
  | .statusError code =>
      if 500 ≤ code ∧ code < 600 then
        .retryAfterWait 1 (some (calculate_backoff_delay cfg rand attempt))
      else
        .finished (.error (.communicationError (some code)), failureTrace 1)
  | .otherError => .retryAfterWait 1 (some (calculate_backoff_delay cfg rand attempt))

/-- The final loop iteration (`attempt == self.max_retries`): every branch of
client.py 105-281 either returns a validated payload or raises its typed
error: `JSONParseError` (line 228), `APISchemaError` (line 235),
`APIRateLimitError(retry_after)` (line 249), `APITimeoutError(self.timeout)`
(line 259), `APICommunicationError(str(e), status_code)` (line 271) and
`APICommunicationError(str(e))` (line 281). -/
def lastAttempt (cfg : ClientConfig) (out : AttemptOutcome α) (attempt : Nat) :
    Except CallFailure α × CallTrace :=
  match out with
  | .content (.valid a) => (.ok a, successTrace 1 attempt)
  | .content (.jsonDecodeError (some (some a))) => (.ok a, successTrace 2 attempt)
  | .content (.jsonDecodeError _) => (.error .jsonParseError, failureTrace 2)
  | .content .schemaInvalid => (.error .apiSchemaError, failureTrace 1)
  | .rateLimited adv => (.error (.rateLimitError (orElse60 adv)), failureTrace 1)
  | .requestTimeout => (.error (.timeoutError cfg.timeout), failureTrace 1)
  | .statusError code => (.error (.communicationError (some code)), failureTrace 1)
  | .otherError => (.error (.communicationError none), failureTrace 1)

/-- The retry loop of `get_structured_response`, indexed by the current
attempt number and the number of further attempts the loop may still make
(`left = max_retries - attempt`). -/
def goCall (cfg : ClientConfig) (env : Nat → AttemptOutcome α) (rand : Nat → ℚ) :
    Nat → Nat → Except CallFailure α × CallTrace
  | attempt, 0 => lastAttempt cfg (env attempt) attempt
  | attempt, left + 1 =>
      match attemptStep cfg (env attempt) (rand attempt) attempt with
      | .finished res => res
      | .retryAfterWait calls wait =>
          addCallsWait calls wait (goCall cfg env rand (attempt + 1) left)

/-- `ResilientAPIClient.get_structured_response` (client.py 66-285): the loop
`for attempt in range(self.max_retries + 1)` starting at attempt `0`.  Note
that the source performs no response-cache lookup or write anywhere in this
function; its observable behaviour is fully determined by the remote
outcomes `env` and the random draws `rand`. -/
def get_structured_response (cfg : ClientConfig) (env : Nat → AttemptOutcome α)
    (rand : Nat → ℚ) : Except CallFailure α × CallTrace :=
  goCall cfg env rand 0 cfg.max_retries

/-- A remote outcome that the source treats as a retryable server error:
an `APIStatusError` with a 5xx code. -/
def is5xxOutcome (o : AttemptOutcome α) : Prop :=
  ∃ c, o = .statusError c ∧ 500 ≤ c ∧ c < 600

/-- A remote outcome retried with exponential backoff: timeout or 5xx. -/
def retryableBackoffOutcome (o : AttemptOutcome α) : Prop :=
  o = .requestTimeout ∨ is5xxOutcome o

/-- The constructor defaults of `ResilientAPIClient`. -/
def cfgDefault : ClientConfig := ⟨3, 1, 60, 30⟩

/-- Remote service that immediately returns a validated payload. -/
def envImmediateOk : Nat → AttemptOutcome Nat := fun _ => .content (.valid 42)

/-- Remote service failing with a 503 on the first two attempts, then
returning a validated payload. -/
def envTwo5xx : Nat → AttemptOutcome Nat := fun i =>
  if i < 2 then .statusError 503 else .content (.valid 7)

/-- Remote service answering 429 with an advised retry interval of 7s. -/
def envRL7 : Nat → AttemptOutcome Nat := fun _ => .rateLimited (some 7)

/-- Remote service answering 429 with an advised retry interval of 0s. -/
def envRLZero : Nat → AttemptOutcome Nat := fun _ => .rateLimited (some 0)

/-- Remote service answering 404 on every attempt. -/
def env404 : Nat → AttemptOutcome Nat := fun _ => .statusError 404

/-- Remote service timing out on every attempt. -/
def envAllTimeout : Nat → AttemptOutcome Nat := fun _ => .requestTimeout

/-- Random stream that always draws 0. -/
def zeroRand : Nat → ℚ := fun _ => 0




/-! ## L1 execution cache (src/caching/cache_manager.py, class L1ExecutionCache)
and the pipeline orchestrators (src/pipeline/orchestrator.py and
src/pipeline/album_orchestrator.py).

The SQLite table `processed_files` (cache_manager.py 38-47) is modelled as an
association list keyed by its primary key `file_path`; `file_path.stat()` is
modelled as an `Option FileStatI` (`none` when `OSError` is raised), and a
possibly failing SQLite query as an `Except` value. -/

/-- The two fields of `os.stat_result` used by the cache: `st_size` and
`st_mtime`. -/
structure FileStatI where
  st_size : Nat
  st_mtime : ℚ
deriving DecidableEq

/-- Python `abs` on a rational. -/
def ratAbs (q : ℚ) : ℚ := if q < 0 then -q else q

/-- One row of the `processed_files` table (cache_manager.py 38-47). -/
structure L1Row where
  file_size : Nat
  last_modified : ℚ
  processed_timestamp : ℚ
  processing_result : Option String
  success : Bool
deriving DecidableEq

/-- The `processed_files` table, keyed by the primary key `file_path`. -/
abbrev L1Db := List (String × L1Row)

/-- Lookup by primary key in an association list. -/
def lookupKey (db : List (String × ρ)) (k : String) : Option ρ :=
  match db with
  | [] => none
  | p :: t => if p.1 = k then some p.2 else lookupKey t k

/-- SQLite `INSERT OR REPLACE` on the primary key. -/
def upsertKey (db : List (String × ρ)) (k : String) (v : ρ) : List (String × ρ) :=
  (k, v) :: db.filter (fun p => !(p.1 == k))

/-- The query `SELECT ... FROM processed_files WHERE file_path = ? AND
success = 1` (cache_manager.py 77-81): at most one row by primary key, kept
only when its `success` flag is set. -/
def l1_query_success (db : L1Db) (path : String) : Option L1Row :=
  match lookupKey db path with
  | some row => if row.success then some row else none
  | none => none

/-- `L1ExecutionCache.is_file_cached` (cache_manager.py 61-95) with its two
effectful steps passed in as data: `statRes` is the outcome of
`file_path.stat()` (`none` when it raises `OSError`) and `queryRes` the
outcome of the SQLite query (`Except.error` when it raises `sqlite3.Error`).
Both error cases are caught and yield `False`; on a row, the file counts as
cached when the stored size equals the current size and the stored
modification time is within 1.0 of the current one. -/
def is_file_cached_eff (statRes : Option FileStatI)
    (queryRes : Except String (Option L1Row)) : Bool :=
  match statRes with
  | none => false
  | some st =>
      match queryRes with
      | .error _ => false
      | .ok none => false
      | .ok (some row) =>
          decide (row.file_size = st.st_size) &&
            decide (ratAbs (row.last_modified - st.st_mtime) < 1)

/-- `is_file_cached` against a healthy database. -/
def is_file_cached (db : L1Db) (statRes : Option FileStatI) (path : String) : Bool :=
  is_file_cached_eff statRes (.ok (l1_query_success db path))

/-- `L1ExecutionCache.cache_file_result` (cache_manager.py 97-127): stat the
file (on `OSError` the write is skipped with a warning) and
`INSERT OR REPLACE` the row `(file_path, file_size, last_modified,
processed_timestamp, processing_result, success)`. -/
def cache_file_result (db : L1Db) (statRes : Option FileStatI) (path : String)
    (processing_result : Option String) (success : Bool) (now : ℚ) : L1Db :=
  match statRes with
  | none => db
  | some st => upsertKey db path ⟨st.st_size, st.st_mtime, now, processing_result, success⟩

/-- `L1ExecutionCache.get_cached_result` (cache_manager.py 129-149): return
`None` unless `is_file_cached` holds; then re-query the `processing_result`
text and decode it with `FinalAlbumInfo.model_validate_json` (abstracted as
`decode`, returning `none` when it raises, since every exception is caught). -/
def get_cached_result_eff (statRes : Option FileStatI)
    (queryRes : Except String (Option L1Row))
    (resultQuery : Except String (Option (Option String)))
    (decode : String → Option β) : Option β :=
  if is_file_cached_eff statRes queryRes then
    match resultQuery with
    | .error _ => none
    | .ok none => none
    | .ok (some none) => none
    | .ok (some (some txt)) => decode txt
  else none

/-- `ProcessingResult` / `AlbumProcessingResult` (api/schemas.py), restricted
to the fields the orchestrator claims are about. -/
structure ProcResult (β : Type) where
  success : Bool
  final_info : Option β
  error_message : Option String
  pipeline_stage_completed : String
deriving DecidableEq

/-- Outcome of the pipeline stages run on one file by
`MusicPipeline.process_single_file` (orchestrator.py 196-222, with
`enable_llm` on): `skipped` when `stage1.process` returns `None`, `completes`
when stages 1-4 and `_create_final_info` all succeed, and `raised msg` when
any of them raises an exception with message `msg`. -/
inductive StageOutcome (β : Type) where
  | skipped
  | completes (final : β)
  | raised (msg : String)
deriving DecidableEq

/-- Environment of one work item: its path, the outcome of `stat()` on it,
what the pipeline stages would do with it, and the wall-clock time used for
the `processed_timestamp` column of the L1 write. -/
structure FileEnv (β : Type) where
  path : String
  statRes : Option FileStatI
  pipeline : StageOutcome β
  now : ℚ
deriving DecidableEq

/-- Observable outcome of `process_single_file`: the returned
`ProcessingResult`, the argument of the `cache_file_result` call it performs
(if any), and whether any pipeline stage was invoked at all (`false` exactly
on the early cached return, which issues no stage and hence no remote call). -/
structure ProcOutcome (β : Type) where
  result : ProcResult β
  l1write : Option (String × FileStatI × β)
  invokedStages : Bool
deriving DecidableEq

/-- Body of the `try` block of `MusicPipeline.process_single_file`
(orchestrator.py 179-237): the cache check comes first and returns the
synthetic `cached` result; otherwise the stages run and an exception
propagates to the handler. On completion the result is written to L1
via `cache_file_result(file_path, final_info)` before returning a
`stage4` result. -/
def process_single_file_body (db : L1Db) (env : FileEnv β) :
    Except String (ProcOutcome β) :=
  if is_file_cached db env.statRes env.path then
    .ok ⟨⟨true, none, none, "cached"⟩, none, false⟩
  else
    match env.pipeline with
    | .skipped =>
        .ok ⟨⟨false, none, some "File skipped (unsupported format or other reason)",
          "stage1"⟩, none, true⟩
    | .completes b =>
        .ok ⟨⟨true, some b, none, "stage4"⟩,
          env.statRes.map (fun st => (env.path, st, b)), true⟩
    | .raised msg => .error msg

/-- `MusicPipeline.process_single_file` (orchestrator.py 167-252): the
`except Exception` handler (lines 239-252) converts any raised error into a
result with `success=False`, the error message, and stage `"error"`. -/
def process_single_file (db : L1Db) (env : FileEnv β) : ProcOutcome β :=
  match process_single_file_body db env with
  | .ok out => out
  | .error msg => ⟨⟨false, none, some msg, "error"⟩, none, true⟩

/-- One item of the sequential driver: run `process_single_file` and apply
its L1 write (serializing the result as `result.json()` does) to the store. -/
def runItem (serialize : β → String) (db : L1Db) (env : FileEnv β) :
    ProcResult β × L1Db :=
  let out := process_single_file db env
  (out.result,
    match out.l1write with
    | none => db
    | some (p, st, b) => cache_file_result db (some st) p (some (serialize b)) true env.now)

/-- `MusicPipeline._process_files_sequential` (orchestrator.py 254-265):
process every file in order, appending each result; the store is threaded
through because the writes of each item are visible to the next. -/
def process_files_sequential (serialize : β → String) :
    L1Db → List (FileEnv β) → List (ProcResult β) × L1Db
  | db, [] => ([], db)
  | db, env :: rest =>
      let r := runItem serialize db env
      let t := process_files_sequential serialize r.2 rest
      (r.1 :: t.1, t.2)

/-- Environment of one album for
`AlbumMusicPipeline.process_single_album` (album_orchestrator.py 188-255):
outcome of `stage1.process` (it may raise), the stat of the album directory
used by the cache check, and the outcome of `album_processor.process`. -/
structure AlbumEnv (γ : Type) where
  album_path : String
  statRes : Option FileStatI
  stage1 : Except String Unit
  llmOutcome : Except String γ
deriving DecidableEq

/-- `AlbumMusicPipeline.process_single_album` (album_orchestrator.py
188-255, with `enable_llm` on).  Stage 1 runs first, then the cache check on
`album_info.album_path`, then the single LLM stage.  The call
`cache_manager.cache_file_result(...)` is commented out in the source (line
227), so a successful album performs no L1 write and the store is returned
unchanged in every branch. -/
def process_single_album (db : L1Db) (env : AlbumEnv γ) : ProcResult γ × L1Db :=
  match env.stage1 with
  | .error msg => (⟨false, none, some msg, "error"⟩, db)
  | .ok _ =>
      if is_file_cached db env.statRes env.album_path then
        (⟨true, none, none, "cached"⟩, db)
      else
        match env.llmOutcome with
        | .ok g => (⟨true, some g, none, "llm_complete"⟩, db)
        | .error msg => (⟨false, none, some msg, "error"⟩, db)

/-- Serializer used by concrete batches in the examples below. -/
def serNat : Nat → String := fun _ => "serialized"

/-- Concrete work items used by the witnesses. -/
def envOkFile : FileEnv Nat := ⟨"a", some ⟨10, 0⟩, .completes 1, 100⟩

def envRaisesFile : FileEnv Nat := ⟨"b", some ⟨20, 0⟩, .raised "boom", 101⟩

def envOkFile2 : FileEnv Nat := ⟨"c", some ⟨30, 0⟩, .completes 3, 102⟩

/-- Concrete album used by the C5 counterexample. -/
def albumEnvC : AlbumEnv Nat := ⟨"album", some ⟨100, 5⟩, .ok (), .ok 1⟩

/-- Concrete L1 store holding a successful record whose fingerprint matches
`envOkFile`. -/
def dbHit : L1Db := [("a", ⟨10, 0, 50, some "r", true⟩)]

/-- Concrete decoder used by the C10 witness. -/
def decodeNone : String → Option Nat := fun _ => none


/-! ## L2 API cache (src/caching/cache_manager.py, class L2APICache)

`_generate_cache_key` (cache_manager.py 205-215) builds the dict
`key_data = dict(prompt=..., model=..., **filtered kwargs)` keeping only the
kwargs named `temperature`, `max_tokens` and `max_completion_tokens`,
serializes it with `json.dumps(key_data, sort_keys=True, ensure_ascii=False)`
and returns the SHA-256 hex digest of the UTF-8 encoding of that string.
SHA-256 is implemented bit-for-bit below over naturals reduced mod 2^32;
`json.dumps` is modelled by a deterministic serializer over a small JSON
value type (its exact string-escaping and float-formatting details are
abstracted deterministically, which is all the key claims depend on). -/

/-- JSON-serializable values appearing among the call kwargs. -/
inductive JVal where
  | jstr (s : String)
  | jint (n : Int)
  | jnum (q : ℚ)
deriving DecidableEq

/-- Escape of one character inside a JSON string literal (model of the
escaping performed by `json.dumps`). -/
def jsonEscapeChar (c : Char) : String :=
  if c = '\\' then "\\\\"
  else if c = '"' then "\\\""
  else if c = '\n' then "\\n"
  else if c = '\t' then "\\t"
  else if c = '\r' then "\\r"
  else String.mk [c]

/-- Escape a whole string for inclusion in JSON output. -/
def jsonEscape (s : String) : String :=
  String.join (s.toList.map jsonEscapeChar)

/-- Deterministic rendering of a rational (stand-in for the decimal `repr`
Python uses for floats; only determinism matters to the claims). -/
def renderRat (q : ℚ) : String :=
  if q.den = 1 then toString q.num ++ ".0" else toString q.num ++ "/" ++ toString q.den

/-- Render one JSON value. -/
def renderJVal : JVal → String
  | .jstr s => "\"" ++ jsonEscape s ++ "\""
  | .jint n => toString n
  | .jnum q => renderRat q

/-- Render one `"key": value` member. -/
def renderEntry (p : String × JVal) : String :=
  "\"" ++ jsonEscape p.1 ++ "\": " ++ renderJVal p.2

/-- Insert an entry into a key-sorted list (insertion sort step). -/
def insertByKey (p : String × JVal) : List (String × JVal) → List (String × JVal)
  | [] => [p]
  | q :: t => if p.1 ≤ q.1 then p :: q :: t else q :: insertByKey p t

/-- The `sort_keys=True` behaviour of `json.dumps`: members are emitted in
sorted key order. -/
def sortByKey (l : List (String × JVal)) : List (String × JVal) :=
  l.foldr insertByKey []

/-- Model of `json.dumps(d, sort_keys=True, ensure_ascii=False)` on a flat
string-keyed dict. -/
def jsonDumpsSorted (entries : List (String × JVal)) : String :=
  "\x7b" ++ String.intercalate ", " ((sortByKey entries).map renderEntry) ++ "\x7d"

/-- The decision-relevant kwarg names kept by `_generate_cache_key`
(cache_manager.py 211). -/
def decisionKeys : List String := ["temperature", "max_tokens", "max_completion_tokens"]

/-- The dict comprehension of cache_manager.py 211: keep exactly the kwargs
whose name is decision-relevant. -/
def filterDecision (kwargs : List (String × JVal)) : List (String × JVal) :=
  kwargs.filter (fun p => decisionKeys.contains p.1)

/-- The dict `key_data` of cache_manager.py 208-212. -/
def key_data (prompt model : String) (kwargs : List (String × JVal)) :
    List (String × JVal) :=
  ("prompt", .jstr prompt) :: ("model", .jstr model) :: filterDecision kwargs

/-- Reduction modulo 2^32 (all SHA-256 words are 32-bit). -/
def w32 (n : Nat) : Nat := n % 4294967296

/-- Right rotation of a 32-bit word. -/
def rotr32 (k x : Nat) : Nat := w32 ((x >>> k) ||| (x <<< (32 - k)))

/-- The small sigma functions of the SHA-256 message schedule. -/
def smallSigma0 (x : Nat) : Nat := rotr32 7 x ^^^ rotr32 18 x ^^^ (x >>> 3)

def smallSigma1 (x : Nat) : Nat := rotr32 17 x ^^^ rotr32 19 x ^^^ (x >>> 10)

/-- The big sigma functions of the SHA-256 compression rounds. -/
def bigSigma0 (x : Nat) : Nat := rotr32 2 x ^^^ rotr32 13 x ^^^ rotr32 22 x

def bigSigma1 (x : Nat) : Nat := rotr32 6 x ^^^ rotr32 11 x ^^^ rotr32 25 x

/-- The choice function of SHA-256. -/
def chOp (x y z : Nat) : Nat := (x &&& y) ^^^ ((x ^^^ 4294967295) &&& z)

/-- The majority function of SHA-256. -/
def majOp (x y z : Nat) : Nat := (x &&& y) ^^^ (x &&& z) ^^^ (y &&& z)

/-- Primality test by trial division (used only to derive the SHA-256
constants from their definition). -/
def isPrimeNat (n : Nat) : Bool :=
  decide (2 ≤ n) && (((List.range n).drop 2).all (fun d => !(n % d == 0)))

/-- The first `k` prime numbers. -/
def firstPrimes (k : Nat) : List Nat :=
  ((List.range 2000).filter isPrimeNat).take k

/-- Binary search for the integer cube root. -/
def cbrtSearch (n : Nat) : Nat → Nat → Nat → Nat
  | 0, lo, _ => lo
  | fuel + 1, lo, hi =>
      if lo = hi then lo
      else
        let mid := (lo + hi + 1) / 2
        if mid * mid * mid ≤ n then cbrtSearch n fuel mid hi else cbrtSearch n fuel lo (mid - 1)

/-- Integer cube root. -/
def icbrt (n : Nat) : Nat := cbrtSearch n 200 0 n

/-- The 64 SHA-256 round constants: the first 32 bits of the fractional parts
of the cube roots of the first 64 primes. -/
def sha256K : List Nat := (firstPrimes 64).map (fun p => icbrt (p * 2 ^ 96) % 4294967296)

/-- The SHA-256 initial hash value: the first 32 bits of the fractional
parts of the square roots of the first 8 primes. -/
def sha256H0 : List Nat := (firstPrimes 8).map (fun p => Nat.sqrt (p * 2 ^ 64) % 4294967296)

/-- A 32-bit word as four big-endian bytes. -/
def bigEndian4 (n : Nat) : List Nat :=
  [(n >>> 24) % 256, (n >>> 16) % 256, (n >>> 8) % 256, n % 256]

/-- A 64-bit length as eight big-endian bytes. -/
def bigEndian8 (n : Nat) : List Nat := bigEndian4 (n >>> 32) ++ bigEndian4 n

/-- SHA-256 message padding: append 0x80, zeros to 56 mod 64, then the
bit length as 8 big-endian bytes. -/
def padMessage (msg : List Nat) : List Nat :=
  msg ++ [0x80] ++ List.replicate ((119 - msg.length % 64) % 64) 0 ++
    bigEndian8 (msg.length * 8)

/-- Split a byte list into 64-byte blocks. -/
def chunks64 (l : List Nat) : List (List Nat) :=
  if l = [] then [] else l.take 64 :: chunks64 (l.drop 64)
termination_by l.length
decreasing_by
  simp only [List.length_drop]
  have : l.length ≠ 0 := by
    intro h0
    exact absurd (List.length_eq_zero.mp h0) (by assumption)
  omega

/-- The 16 initial 32-bit words of one block. -/
def toWords (chunk : List Nat) : List Nat :=
  (List.range 16).map (fun i =>
    (chunk.getD (4 * i) 0) <<< 24 + (chunk.getD (4 * i + 1) 0) <<< 16 +
      (chunk.getD (4 * i + 2) 0) <<< 8 + chunk.getD (4 * i + 3) 0)

/-- Extend the message schedule by `k` further words. -/
def extendSchedule : Nat → List Nat → List Nat
  | 0, w => w
  | k + 1, w =>
      extendSchedule k (w ++
        [w32 (smallSigma1 (w.getD (w.length - 2) 0) + w.getD (w.length - 7) 0 +
          smallSigma0 (w.getD (w.length - 15) 0) + w.getD (w.length - 16) 0)])

/-- One SHA-256 compression round; the state is the word list
`[a, b, c, d, e, f, g, h]` and `kw` the pair of round constant and
schedule word. -/
def roundStep (st : List Nat) (kw : Nat × Nat) : List Nat :=
  let a := st.getD 0 0
  let b := st.getD 1 0
  let c := st.getD 2 0
  let d := st.getD 3 0
  let e := st.getD 4 0
  let f := st.getD 5 0
  let g := st.getD 6 0
  let h := st.getD 7 0
  let t1 := w32 (h + bigSigma1 e + chOp e f g + kw.1 + kw.2)
  let t2 := w32 (bigSigma0 a + majOp a b c)
  [w32 (t1 + t2), a, b, c, w32 (d + t1), e, f, g]

/-- Process one 64-byte block. -/
def processChunk (st : List Nat) (chunk : List Nat) : List Nat :=
  let ws := extendSchedule 48 (toWords chunk)
  let fin := (sha256K.zip ws).foldl roundStep st
  (st.zip fin).map (fun p => w32 (p.1 + p.2))

/-- Hex digit characters. -/
def hexDigitChar (n : Nat) : Char := "0123456789abcdef".toList.getD n '0'

/-- One byte as two lowercase hex characters. -/
def byteHex (n : Nat) : String := String.mk [hexDigitChar (n / 16), hexDigitChar (n % 16)]

/-- SHA-256 of a byte list, as the usual lowercase hex string. -/
def sha256Hex (msg : List Nat) : String :=
  String.join
    ((((chunks64 (padMessage msg)).foldl processChunk sha256H0).foldr
        (fun wrd acc => bigEndian4 wrd ++ acc) []).map byteHex)

/-- UTF-8 encoding of a string, as the list of its byte values
(`key_str.encode` with utf-8). -/
def utf8Bytes (s : String) : List Nat := s.toUTF8.toList.map (fun b => b.toNat)

/-- `L2APICache._generate_cache_key` (cache_manager.py 205-215). -/
def generate_cache_key (prompt model : String) (kwargs : List (String × JVal)) : String :=
  sha256Hex (utf8Bytes (jsonDumpsSorted (key_data prompt model kwargs)))

/-- One entry of `L2APICache._cache_data` (cache_manager.py 258-262): the
insertion timestamp, the cached response payload and the model tag. -/
structure L2Entry (ρ : Type) where
  timestamp : ℚ
  response : ρ
  modelTag : String
deriving DecidableEq

/-- The in-memory dict `_cache_data`, keyed by the generated cache key. -/
abbrev L2Data (ρ : Type) := List (String × L2Entry ρ)

/-- `L2APICache.cache_response` (cache_manager.py 246-268): store the entry
under the generated key, overwriting any previous entry for that key (the
periodic `_save_cache` call is pure persistence and does not change the
mapping). -/
def cache_response (data : L2Data ρ) (now : ℚ) (prompt model : String)
    (kwargs : List (String × JVal)) (response : ρ) : L2Data ρ :=
  upsertKey data (generate_cache_key prompt model kwargs) ⟨now, response, model⟩

/-- `L2APICache.get_cached_response` (cache_manager.py 217-244): on a present
key, return the payload when the entry is younger than
`expiry_days * 24 * 3600` seconds, otherwise delete the stale entry and
return `None`; on an absent key return `None`.  The updated `_cache_data`
dict is returned alongside. -/
def get_cached_response (expiry_days : Nat) (data : L2Data ρ) (now : ℚ)
    (prompt model : String) (kwargs : List (String × JVal)) : Option ρ × L2Data ρ :=
  match lookupKey data (generate_cache_key prompt model kwargs) with
  | none => (none, data)
  | some entry =>
      if now - entry.timestamp < (expiry_days * 24 * 3600 : ℚ) then
        (some entry.response, data)
      else
        (none, data.filter (fun p => !(p.1 == generate_cache_key prompt model kwargs)))

/-- Concrete kwargs used by the C9 witness: decision-relevant only. -/
def kwDecisionOnly : List (String × JVal) := [("temperature", .jnum 0), ("max_tokens", .jint 1000)]

/-- The same decision-relevant kwargs plus cosmetic extras. -/
def kwWithExtras : List (String × JVal) :=
  [("temperature", .jnum 0), ("max_tokens", .jint 1000), ("timeout", .jint 30), ("stream", .jstr "no")]

/-! ### Helper lemmas about the retry loop -/

lemma addCallsWait_fst (calls : Nat) (wait : Option ℚ) (p : Except CallFailure α × CallTrace) :
    (addCallsWait calls wait p).1 = p.1 := rfl

lemma addCallsWait_remoteCalls (calls : Nat) (wait : Option ℚ) (p : Except CallFailure α × CallTrace) :
    (addCallsWait calls wait p).2.remoteCalls = calls + p.2.remoteCalls := rfl

lemma addCallsWait_dRetried (calls : Nat) (wait : Option ℚ) (p : Except CallFailure α × CallTrace) :
    (addCallsWait calls wait p).2.dRetried = p.2.dRetried := rfl

lemma addCallsWait_dSuccessful (calls : Nat) (wait : Option ℚ) (p : Except CallFailure α × CallTrace) :
    (addCallsWait calls wait p).2.dSuccessful = p.2.dSuccessful := rfl

lemma addCallsWait_waits (calls : Nat) (w : ℚ) (p : Except CallFailure α × CallTrace) :
    (addCallsWait calls (some w) p).2.waits = w :: p.2.waits := rfl

lemma goCall_5xx_step {α : Type} {cfg : ClientConfig} {env : Nat → AttemptOutcome α}
    {rand : Nat → ℚ} {attempt left : Nat} {c : Nat}
    (h : env attempt = .statusError c) (h5 : 500 ≤ c) (h6 : c < 600) :
    goCall cfg env rand attempt (left + 1) =
      addCallsWait 1 (some (calculate_backoff_delay cfg (rand attempt) attempt))
        (goCall cfg env rand (attempt + 1) left) := by
  simp [goCall, attemptStep, h, h5, h6]

lemma goCall_timeout_step {α : Type} {cfg : ClientConfig} {env : Nat → AttemptOutcome α}
    {rand : Nat → ℚ} {attempt left : Nat}
    (h : env attempt = .requestTimeout) :
    goCall cfg env rand attempt (left + 1) =
      addCallsWait 1 (some (calculate_backoff_delay cfg (rand attempt) attempt))
        (goCall cfg env rand (attempt + 1) left) := by
  simp [goCall, attemptStep, h]

lemma goCall_after_5xx_prefix (cfg : ClientConfig) (env : Nat → AttemptOutcome α)
    (rand : Nat → ℚ) (a : α) (j : Nat) :
    ∀ attempt left : Nat, j ≤ left →
      (∀ i, i < j → is5xxOutcome (env (attempt + i))) →
      env (attempt + j) = .content (.valid a) →
      (goCall cfg env rand attempt left).1 = .ok a ∧
      (goCall cfg env rand attempt left).2.dSuccessful = 1 ∧
      (goCall cfg env rand attempt left).2.dRetried = (if 0 < attempt + j then 1 else 0) ∧
      (goCall cfg env rand attempt left).2.remoteCalls = j + 1 := by
  induction j with
  | zero =>
      intro attempt left _ _ hok
      rw [Nat.add_zero] at hok
      cases left with
      | zero =>
          refine ⟨?_, ?_, ?_, ?_⟩ <;> simp [goCall, lastAttempt, hok, successTrace]
      | succ l =>
          refine ⟨?_, ?_, ?_, ?_⟩ <;> simp [goCall, attemptStep, hok, successTrace]
  | succ j ih =>
      intro attempt left hle h5 hok
      obtain ⟨c, hc, hc5, hc6⟩ := h5 0 (Nat.succ_pos j)
      rw [Nat.add_zero] at hc
      cases left with
      | zero => exact absurd hle (by omega)
      | succ l =>
          rw [goCall_5xx_step hc hc5 hc6]
          have e1 : ∀ i, i < j → is5xxOutcome (env (attempt + 1 + i)) := by
            intro i hi
            have h := h5 (i + 1) (by omega)
            have eq : attempt + (i + 1) = attempt + 1 + i := by omega
            rwa [eq] at h
          have e2 : env (attempt + 1 + j) = .content (.valid a) := by
            have eq : attempt + (j + 1) = attempt + 1 + j := by omega
            rwa [eq] at hok
          obtain ⟨r1, r2, r3, r4⟩ := ih (attempt + 1) l (by omega) e1 e2
          have eq : attempt + 1 + j = attempt + (j + 1) := by omega
          rw [eq] at r3
          refine ⟨?_, ?_, ?_, ?_⟩
          · rw [addCallsWait_fst]; exact r1
          · rw [addCallsWait_dSuccessful]; exact r2
          · rw [addCallsWait_dRetried]; exact r3
          · rw [addCallsWait_remoteCalls, r4]; omega

lemma goCall_all_backoff_retryable (cfg : ClientConfig) (env : Nat → AttemptOutcome α)
    (rand : Nat → ℚ) :
    ∀ left attempt : Nat,
      (∀ i, attempt ≤ i → i ≤ attempt + left → retryableBackoffOutcome (env i)) →
      ((∃ c, (goCall cfg env rand attempt left).1 = .error (.communicationError (some c))) ∨
        (goCall cfg env rand attempt left).1 = .error (.timeoutError cfg.timeout)) ∧
      (goCall cfg env rand attempt left).2.remoteCalls = left + 1 := by
  intro left
  induction left with
  | zero =>
      intro attempt h
      rcases h attempt le_rfl (by omega) with ht | ⟨c, hc, _, _⟩
      · exact ⟨Or.inr (by simp [goCall, lastAttempt, ht]),
          by simp [goCall, lastAttempt, ht, failureTrace]⟩
      · exact ⟨Or.inl ⟨c, by simp [goCall, lastAttempt, hc]⟩,
          by simp [goCall, lastAttempt, hc, failureTrace]⟩
  | succ l ih =>
      intro attempt h
      obtain ⟨r1, r2⟩ := ih (attempt + 1) (fun i hi1 hi2 => h i (by omega) (by omega))
      rcases h attempt le_rfl (by omega) with ht | ⟨c, hc, hc5, hc6⟩
      · rw [goCall_timeout_step ht]
        refine ⟨by rw [addCallsWait_fst]; exact r1, ?_⟩
        rw [addCallsWait_remoteCalls, r2]
        omega
      · rw [goCall_5xx_step hc hc5 hc6]
        refine ⟨by rw [addCallsWait_fst]; exact r1, ?_⟩
        rw [addCallsWait_remoteCalls, r2]
        omega

/-! ### Claim theorems for the client -/

/-- C1: the claim says `get_structured_response` first consults the L2
response cache and writes through on success, so that a second identical call
issues zero remote calls.  The function in src/api/client.py contains no
cache lookup or write at all: under a remote service that immediately returns
a validated payload, every invocation of `get_structured_response` - in
particular the second of two identical calls - issues exactly one remote
call, not zero.  This theorem evaluates the embedded code at that failing
input. -/
theorem c1_no_cache_in_client :
    (get_structured_response cfgDefault envImmediateOk zeroRand).1 = .ok 42 ∧
    (get_structured_response cfgDefault envImmediateOk zeroRand).2.remoteCalls = 1 ∧
    (1 : Nat) ≠ 0 := by decide

/-- C2 counterexample: with the default configuration and a service that
fails with 503 exactly twice (k = 2) and then succeeds, the call returns the
payload but the `retried_requests` counter increases by 1, not by k = 2,
because client.py 200-201 adds 1 once on the final success rather than once
per retried attempt. -/
theorem c2_counterexample_retried_by_one :
    (get_structured_response cfgDefault envTwo5xx zeroRand).1 = .ok 7 ∧
    (get_structured_response cfgDefault envTwo5xx zeroRand).2.dRetried = 1 ∧
    (1 : Nat) ≠ 2 := by decide

/-- C2 amended: if the remote service fails with a 5xx error exactly k times
(0 < k <= max_retries) and then succeeds, `get_structured_response` returns
the validated payload and the retried_requests counter increases by exactly
one (it counts requests that needed at least one retry, not individual
retries); the successful_requests counter also increases by one. -/
theorem c2_retried_counter_amended (cfg : ClientConfig) (env : Nat → AttemptOutcome α)
    (rand : Nat → ℚ) (a : α) (k : Nat) (hk : 0 < k) (hle : k ≤ cfg.max_retries)
    (h5 : ∀ i, i < k → is5xxOutcome (env i))
    (hok : env k = .content (.valid a)) :
    (get_structured_response cfg env rand).1 = .ok a ∧
    (get_structured_response cfg env rand).2.dRetried = 1 ∧
    (get_structured_response cfg env rand).2.dSuccessful = 1 := by
  have h5x : ∀ i, i < k → is5xxOutcome (env (0 + i)) := by simpa using h5
  have hokx : env (0 + k) = .content (.valid a) := by simpa using hok
  obtain ⟨r1, r2, r3, _⟩ :=
    goCall_after_5xx_prefix cfg env rand a k 0 cfg.max_retries hle h5x hokx
  have hpos : 0 < 0 + k := by omega
  rw [if_pos hpos] at r3
  exact ⟨r1, r3, r2⟩

theorem c2_retried_counter_amended_witness :
    (get_structured_response cfgDefault envTwo5xx zeroRand).1 = .ok 7 ∧
    (get_structured_response cfgDefault envTwo5xx zeroRand).2.dRetried = 1 ∧
    (get_structured_response cfgDefault envTwo5xx zeroRand).2.dSuccessful = 1 :=
  c2_retried_counter_amended cfgDefault envTwo5xx zeroRand 7 2 (by decide) (by decide)
    (fun i hi => ⟨503, by simp [envTwo5xx, hi], by decide, by decide⟩) (by decide)

/-- C6 amended: on a rate-limited response with advised interval
`retry_after`, when attempts remain the client waits exactly the effective
interval `orElse60 retry_after` - the advised value when it is present and
nonzero, and the fixed 60-second fallback when it is absent or zero (the
Python `or` treats 0 as falsy) - not an exponential backoff value; on
exhaustion it raises `APIRateLimitError` carrying that same effective
interval. -/
theorem c6_rate_limit_wait_amended (cfg : ClientConfig) (env : Nat → AttemptOutcome α)
    (rand : Nat → ℚ) :
    (∀ attempt l adv, env attempt = .rateLimited adv →
        (goCall cfg env rand attempt (l + 1)).2.waits =
          orElse60 adv :: (goCall cfg env rand (attempt + 1) l).2.waits ∧
        (goCall cfg env rand attempt (l + 1)).1 = (goCall cfg env rand (attempt + 1) l).1) ∧
    (∀ attempt adv, env attempt = .rateLimited adv →
        goCall cfg env rand attempt 0 =
          (.error (.rateLimitError (orElse60 adv)), failureTrace 1)) ∧
    (∀ t : ℚ, t ≠ 0 → orElse60 (some t) = t) ∧
    orElse60 none = 60 ∧ orElse60 (some 0) = 60 := by
  refine ⟨?_, ?_, ?_, rfl, by simp [orElse60]⟩
  · intro attempt l adv h
    constructor <;> simp [goCall, attemptStep, h, addCallsWait]
  · intro attempt adv h
    simp [goCall, lastAttempt, h]
  · intro t ht
    simp [orElse60, ht]

theorem c6_rate_limit_wait_amended_witness :
    (goCall cfgDefault envRL7 zeroRand 0 3).2.waits =
      orElse60 (some 7) :: (goCall cfgDefault envRL7 zeroRand 1 2).2.waits ∧
    goCall cfgDefault envRL7 zeroRand 0 0 =
      (.error (.rateLimitError (orElse60 (some 7))), failureTrace 1) :=
  ⟨((c6_rate_limit_wait_amended cfgDefault envRL7 zeroRand).1 0 2 (some 7) rfl).1,
    (c6_rate_limit_wait_amended cfgDefault envRL7 zeroRand).2.1 0 (some 7) rfl⟩

/-- C6 counterexample: for a rate-limited response advising
`retry_after = 0`, the claim as stated requires a wait of exactly T = 0
seconds, but the code waits 60 (the expression
`getattr(e, "retry_after", None) or 60` treats 0 as falsy) and the exhaustion
error carries 60, not the advised 0. -/
theorem c6_counterexample_zero_advised :
    (get_structured_response cfgDefault envRLZero zeroRand).2.waits.head? = some 60 ∧
    (get_structured_response cfgDefault envRLZero zeroRand).1 = .error (.rateLimitError 60) ∧
    (60 : ℚ) ≠ 0 := by decide

/-- C7: a non-rate-limit 4xx status error is never retried and immediately
produces a typed communication error carrying the status code; a 5xx or
timeout outcome is retried after a wait of exactly
`min(max_delay, base_delay * 2 ^ attempt * (1 + jitter))` where the jitter
`rand attempt * (1/4)` is drawn freshly each attempt and lies in [0, 1/4);
and when every attempt fails retryably the loop performs exactly
`max_retries + 1` remote calls and then returns a typed
communication/timeout error. -/
theorem c7_backoff_and_4xx (cfg : ClientConfig) (env : Nat → AttemptOutcome α)
    (rand : Nat → ℚ) (hr : ∀ n, 0 ≤ rand n ∧ rand n < 1) :
    (∀ attempt left code, 400 ≤ code → code < 500 → env attempt = .statusError code →
        goCall cfg env rand attempt left =
          (.error (.communicationError (some code)), failureTrace 1)) ∧
    (∀ attempt l, retryableBackoffOutcome (env attempt) →
        (goCall cfg env rand attempt (l + 1)).2.waits =
          min cfg.max_delay (cfg.base_delay * 2 ^ attempt * (1 + rand attempt * (1 / 4))) ::
            (goCall cfg env rand (attempt + 1) l).2.waits ∧
        0 ≤ rand attempt * (1 / 4) ∧ rand attempt * (1 / 4) < 1 / 4 ∧
        (goCall cfg env rand attempt (l + 1)).1 = (goCall cfg env rand (attempt + 1) l).1) ∧
    ((∀ i, i ≤ cfg.max_retries → retryableBackoffOutcome (env i)) →
        ((∃ c, (get_structured_response cfg env rand).1 =
            .error (.communicationError (some c))) ∨
          (get_structured_response cfg env rand).1 = .error (.timeoutError cfg.timeout)) ∧
        (get_structured_response cfg env rand).2.remoteCalls = cfg.max_retries + 1) := by
  have hb : ∀ attempt, calculate_backoff_delay cfg (rand attempt) attempt =
      min cfg.max_delay (cfg.base_delay * 2 ^ attempt * (1 + rand attempt * (1 / 4))) := by
    intro attempt
    rw [calculate_backoff_delay, min_comm]
    congr 1
    ring
  refine ⟨?_, ?_, ?_⟩
  · intro attempt left code h4 h5 h
    cases left with
    | zero => simp [goCall, lastAttempt, h]
    | succ l =>
        have hno : ¬(500 ≤ code ∧ code < 600) := by omega
        simp [goCall, attemptStep, h, hno]
  · intro attempt l hret
    obtain ⟨hr0, hr1⟩ := hr attempt
    have hstep : goCall cfg env rand attempt (l + 1) =
        addCallsWait 1 (some (calculate_backoff_delay cfg (rand attempt) attempt))
          (goCall cfg env rand (attempt + 1) l) := by
      rcases hret with ht | ⟨c, hc, hc5, hc6⟩
      · exact goCall_timeout_step ht
      · exact goCall_5xx_step hc hc5 hc6
    rw [hstep]
    refine ⟨?_, ?_, ?_, rfl⟩
    · rw [addCallsWait_waits, hb]
    · positivity
    · linarith
  · intro hall
    exact goCall_all_backoff_retryable cfg env rand cfg.max_retries 0
      (fun i hi1 hi2 => hall i (by omega))

theorem c7_backoff_and_4xx_witness :
    goCall cfgDefault env404 zeroRand 0 3 =
      (.error (.communicationError (some 404)), failureTrace 1) :=
  (c7_backoff_and_4xx cfgDefault env404 zeroRand
      (fun n => ⟨by norm_num [zeroRand], by norm_num [zeroRand]⟩)).1 0 3 404
    (by norm_num) (by norm_num) rfl


/-! ### Claim theorems for the L1 cache and the orchestrators -/

lemma lookupKey_upsertKey_self (db : List (String × ρ)) (k : String) (v : ρ) :
    lookupKey (upsertKey db k v) k = some v := by
  simp [upsertKey, lookupKey]

/-- C3: the sequential batch driver returns exactly one result per work
item; an item whose processing raises an error (and which is not an L1 cache
hit) yields a result with success = false, stage "error" and the raised
message, leaves the L1 store unchanged, and the remaining items are processed
exactly as they would have been - the batch never terminates early. -/
theorem c3_batch_never_aborts (β : Type) (serialize : β → String) :
    (∀ (db : L1Db) (envs : List (FileEnv β)),
        (process_files_sequential serialize db envs).1.length = envs.length) ∧
    (∀ (db : L1Db) (env : FileEnv β) (msg : String),
        env.pipeline = .raised msg →
        is_file_cached db env.statRes env.path = false →
        runItem serialize db env = (⟨false, none, some msg, "error"⟩, db)) ∧
    (∀ (db : L1Db) (env : FileEnv β) (rest : List (FileEnv β)) (msg : String),
        env.pipeline = .raised msg →
        is_file_cached db env.statRes env.path = false →
        (process_files_sequential serialize db (env :: rest)).1 =
          ⟨false, none, some msg, "error"⟩ ::
            (process_files_sequential serialize db rest).1) := by
  have hrun : ∀ (db : L1Db) (env : FileEnv β) (msg : String),
      env.pipeline = .raised msg →
      is_file_cached db env.statRes env.path = false →
      runItem serialize db env = (⟨false, none, some msg, "error"⟩, db) := by
    intro db env msg hp hm
    simp [runItem, process_single_file, process_single_file_body, hp, hm]
  refine ⟨?_, hrun, ?_⟩
  · intro db envs
    induction envs generalizing db with
    | nil => rfl
    | cons env rest ih => simp [process_files_sequential, ih]
  · intro db env rest msg hp hm
    simp [process_files_sequential, hrun db env msg hp hm]

theorem c3_batch_never_aborts_witness :
    (process_files_sequential serNat [] [envOkFile, envRaisesFile, envOkFile2]).1.length = 3 ∧
    runItem serNat [] envRaisesFile = (⟨false, none, some "boom", "error"⟩, []) ∧
    (process_files_sequential serNat [] (envRaisesFile :: [envOkFile2])).1 =
      ⟨false, none, some "boom", "error"⟩ ::
        (process_files_sequential serNat [] [envOkFile2]).1 :=
  ⟨(c3_batch_never_aborts Nat serNat).1 [] [envOkFile, envRaisesFile, envOkFile2],
    (c3_batch_never_aborts Nat serNat).2.1 [] envRaisesFile "boom" rfl (by decide),
    (c3_batch_never_aborts Nat serNat).2.2 [] envRaisesFile [envOkFile2] "boom" rfl (by decide)⟩

lemma is_file_cached_iff (db : L1Db) (path : String) (st : FileStatI) :
    is_file_cached db (some st) path = true ↔
      ∃ row : L1Row, lookupKey db path = some row ∧ row.success = true ∧
        row.file_size = st.st_size ∧ ratAbs (row.last_modified - st.st_mtime) < 1 := by
  cases hq : lookupKey db path with
  | none => simp [is_file_cached, is_file_cached_eff, l1_query_success, hq]
  | some row =>
      cases hs : row.success with
      | false => simp [is_file_cached, is_file_cached_eff, l1_query_success, hq, hs]
      | true =>
          simp only [is_file_cached, is_file_cached_eff, l1_query_success, hq, if_pos hs]
          constructor
          · intro h
            simp only [Bool.and_eq_true, decide_eq_true_eq] at h
            exact ⟨row, rfl, hs, h.1, h.2⟩
          · intro ⟨row2, hq2, hs2, hsize, hmt⟩
            obtain rfl : row = row2 := by
              have := hq2
              simp at this
              exact this
            simp [hsize, hmt]

/-- C4: when the stat of the file succeeds, `process_single_file` returns
the synthetic cached result (success = true, stage "cached", no pipeline
stage invoked and hence no remote call, no L1 write) exactly when the L1
store holds a successful record for the path whose stored size equals the
current size and whose stored modification time differs from the current one
by strictly less than 1; and whenever the cache check fails the stages are
invoked, i.e. the item is reprocessed. -/
theorem c4_cached_skip_iff_fingerprint_match (β : Type) (db : L1Db) (env : FileEnv β)
    (st : FileStatI) (hst : env.statRes = some st) :
    (((process_single_file db env).result.pipeline_stage_completed = "cached" ∧
      (process_single_file db env).result.success = true ∧
      (process_single_file db env).invokedStages = false ∧
      (process_single_file db env).l1write = none) ↔
      (∃ row : L1Row, lookupKey db env.path = some row ∧ row.success = true ∧
        row.file_size = st.st_size ∧ ratAbs (row.last_modified - st.st_mtime) < 1)) ∧
    (is_file_cached db env.statRes env.path = false →
      (process_single_file db env).invokedStages = true) := by
  constructor
  · by_cases h : is_file_cached db env.statRes env.path
    · have hhit : is_file_cached db (some st) env.path = true := by rw [← hst]; exact h
      have hout : process_single_file db env = ⟨⟨true, none, none, "cached"⟩, none, false⟩ := by
        simp [process_single_file, process_single_file_body, h]
      refine ⟨fun _ => (is_file_cached_iff db env.path st).mp hhit, fun _ => ?_⟩
      rw [hout]
      exact ⟨rfl, rfl, rfl, rfl⟩
    · have hmiss : is_file_cached db env.statRes env.path = false := by
        simpa using h
      have hR : ¬ ∃ row : L1Row, lookupKey db env.path = some row ∧ row.success = true ∧
          row.file_size = st.st_size ∧ ratAbs (row.last_modified - st.st_mtime) < 1 := by
        intro hex
        have : is_file_cached db (some st) env.path = true :=
          (is_file_cached_iff db env.path st).mpr hex
        rw [← hst] at this
        exact h this
      refine iff_of_false ?_ hR
      intro ⟨h1, h2, h3, h4⟩
      cases hp : env.pipeline with
      | skipped =>
          simp [process_single_file, process_single_file_body, hmiss, hp] at h1
      | completes b =>
          simp [process_single_file, process_single_file_body, hmiss, hp] at h1
      | raised msg =>
          simp [process_single_file, process_single_file_body, hmiss, hp] at h1
  · intro h
    cases hp : env.pipeline with
    | skipped => simp [process_single_file, process_single_file_body, h, hp]
    | completes b => simp [process_single_file, process_single_file_body, h, hp]
    | raised msg => simp [process_single_file, process_single_file_body, h, hp]

theorem c4_cached_skip_iff_fingerprint_match_witness :
    (process_single_file dbHit envOkFile).result.pipeline_stage_completed = "cached" ∧
    (process_single_file dbHit envOkFile).result.success = true ∧
    (process_single_file dbHit envOkFile).invokedStages = false ∧
    (process_single_file dbHit envOkFile).l1write = none :=
  (c4_cached_skip_iff_fingerprint_match Nat dbHit envOkFile ⟨10, 0⟩ rfl).1.mpr
    ⟨⟨10, 0, 50, some "r", true⟩, by decide, by decide, by decide, by norm_num [ratAbs]⟩

/-- C5 amended: in the file-level pipeline (MusicPipeline), every item that
is not an L1 hit and whose processing completes successfully is recorded into
the L1 store - identity, fingerprint and serialized result - before its
result is returned, and a later run over the unchanged item is an L1 hit.
(The album-level pipeline does not record successes: see the
counterexample.) -/
theorem c5_l1_write_on_success_amended (β : Type) (serialize : β → String)
    (db : L1Db) (env : FileEnv β) (st : FileStatI) (b : β)
    (hst : env.statRes = some st)
    (hmiss : is_file_cached db env.statRes env.path = false)
    (hok : env.pipeline = .completes b) :
    (process_single_file db env).l1write = some (env.path, st, b) ∧
    runItem serialize db env =
      (⟨true, some b, none, "stage4"⟩,
        upsertKey db env.path ⟨st.st_size, st.st_mtime, env.now, some (serialize b), true⟩) ∧
    is_file_cached (runItem serialize db env).2 (some st) env.path = true := by
  have hmiss2 : is_file_cached db (some st) env.path = false := by
    rw [← hst]; exact hmiss
  have hout : process_single_file db env =
      ⟨⟨true, some b, none, "stage4"⟩, some (env.path, st, b), true⟩ := by
    simp [process_single_file, process_single_file_body, hmiss, hmiss2, hok, hst]
  have hrun : runItem serialize db env =
      (⟨true, some b, none, "stage4"⟩,
        upsertKey db env.path ⟨st.st_size, st.st_mtime, env.now, some (serialize b), true⟩) := by
    simp [runItem, hout, cache_file_result]
  refine ⟨by rw [hout], hrun, ?_⟩
  rw [hrun]
  rw [is_file_cached_iff]
  refine ⟨⟨st.st_size, st.st_mtime, env.now, some (serialize b), true⟩,
    lookupKey_upsertKey_self db env.path _, rfl, rfl, ?_⟩
  simp [ratAbs]

theorem c5_l1_write_on_success_amended_witness :
    (process_single_file [] envOkFile).l1write = some ("a", ⟨10, 0⟩, 1) ∧
    runItem serNat [] envOkFile =
      (⟨true, some 1, none, "stage4"⟩,
        upsertKey [] "a" ⟨10, 0, 100, some "serialized", true⟩) ∧
    is_file_cached (runItem serNat [] envOkFile).2 (some ⟨10, 0⟩) "a" = true :=
  c5_l1_write_on_success_amended Nat serNat [] envOkFile ⟨10, 0⟩ 1 rfl (by decide) rfl

/-- C5 counterexample: in `AlbumMusicPipeline.process_single_album` the
L1 write is disabled (the `cache_file_result` call at album_orchestrator.py
227 is commented out), so a successfully processed album leaves the store
unchanged, the item is not an L1 hit afterwards, and a second identical run
reprocesses it (stage "llm_complete" again, not "cached"). -/
theorem c5_counterexample_album_no_l1_write :
    (process_single_album [] albumEnvC).1.success = true ∧
    (process_single_album [] albumEnvC).1.pipeline_stage_completed = "llm_complete" ∧
    (process_single_album [] albumEnvC).2 = [] ∧
    is_file_cached ((process_single_album [] albumEnvC).2) (some ⟨100, 5⟩) "album" = false ∧
    (process_single_album ((process_single_album [] albumEnvC).2) albumEnvC).1.pipeline_stage_completed =
      "llm_complete" := by decide

/-- C10: `is_file_cached` is total at its public interface - when the stat
of the path fails (file gone) or the backing database read errors, it returns
false instead of propagating; and `get_cached_result` returns none for any
inputs on which `is_file_cached` is false. -/
theorem c10_is_file_cached_total (β : Type) (decode : String → Option β) :
    (∀ queryRes : Except String (Option L1Row), is_file_cached_eff none queryRes = false) ∧
    (∀ (st : FileStatI) (e : String), is_file_cached_eff (some st) (.error e) = false) ∧
    (∀ (statRes : Option FileStatI) (queryRes : Except String (Option L1Row))
        (resultQuery : Except String (Option (Option String))),
        is_file_cached_eff statRes queryRes = false →
        get_cached_result_eff statRes queryRes resultQuery decode = none) := by
  refine ⟨fun _ => rfl, fun _ _ => rfl, ?_⟩
  intro statRes queryRes resultQuery h
  simp [get_cached_result_eff, h]

theorem c10_is_file_cached_total_witness :
    is_file_cached_eff none (.ok none) = false ∧
    is_file_cached_eff (some ⟨1, 0⟩) (.error "db locked") = false ∧
    get_cached_result_eff (some ⟨1, 0⟩) (.ok none) (.ok none) decodeNone = none :=
  ⟨(c10_is_file_cached_total Nat decodeNone).1 (.ok none),
    (c10_is_file_cached_total Nat decodeNone).2.1 ⟨1, 0⟩ "db locked",
    (c10_is_file_cached_total Nat decodeNone).2.2 (some ⟨1, 0⟩) (.ok none) (.ok none) (by decide)⟩


/-! ### Claim theorems for the L2 cache -/

lemma lookupKey_filter_ne (data : List (String × ρ)) (k : String) :
    lookupKey (data.filter (fun p => !(p.1 == k))) k = none := by
  induction data with
  | nil => rfl
  | cons p t ih =>
      by_cases h : p.1 = k
      · simp [List.filter_cons, h, ih]
      · simp [List.filter_cons, h, lookupKey, ih]

/-- C8: after `cache_response` stores a payload at time T under the key of
(prompt, model, kwargs), `get_cached_response` at time T + d returns the
payload when d is smaller than the expiry window `expiry_days * 24 * 3600`
and returns none when d is at least the window, in the latter case eagerly
deleting the stale entry from the store; and a key not present in the store
yields none. -/
theorem c8_l2_get_put_expiry (ρ : Type) (expiry_days : Nat) (data : L2Data ρ)
    (T d now : ℚ) (prompt model : String) (kwargs : List (String × JVal)) (resp : ρ) :
    (d < (expiry_days * 24 * 3600 : ℚ) →
      (get_cached_response expiry_days (cache_response data T prompt model kwargs resp)
        (T + d) prompt model kwargs).1 = some resp) ∧
    ((expiry_days * 24 * 3600 : ℚ) ≤ d →
      (get_cached_response expiry_days (cache_response data T prompt model kwargs resp)
        (T + d) prompt model kwargs).1 = none ∧
      lookupKey ((get_cached_response expiry_days (cache_response data T prompt model kwargs resp)
        (T + d) prompt model kwargs).2) (generate_cache_key prompt model kwargs) = none) ∧
    (lookupKey data (generate_cache_key prompt model kwargs) = none →
      (get_cached_response expiry_days data now prompt model kwargs).1 = none) := by
  have hlook : lookupKey (cache_response data T prompt model kwargs resp)
      (generate_cache_key prompt model kwargs) = some ⟨T, resp, model⟩ :=
    lookupKey_upsertKey_self data _ _
  have hsub : T + d - T = d := by ring
  refine ⟨?_, ?_, ?_⟩
  · intro h
    simp only [get_cached_response, hlook, hsub, if_pos h]
  · intro h
    have hno : ¬ (T + d - T < (expiry_days * 24 * 3600 : ℚ)) := by
      rw [hsub]; exact not_lt.mpr h
    constructor
    · simp only [get_cached_response, hlook, if_neg hno]
    · simp only [get_cached_response, hlook, if_neg hno]
      exact lookupKey_filter_ne _ _
  · intro h
    simp only [get_cached_response, h]

theorem c8_l2_get_put_expiry_witness :
    (get_cached_response 30 (cache_response [] 0 "p" "m" [] (5 : Nat)) (0 + 1) "p" "m" []).1 =
      some 5 ∧
    (get_cached_response 30 (cache_response [] 0 "p" "m" [] (5 : Nat)) (0 + 2592000) "p" "m" []).1 =
      none ∧
    lookupKey ((get_cached_response 30 (cache_response [] 0 "p" "m" [] (5 : Nat))
      (0 + 2592000) "p" "m" []).2) (generate_cache_key "p" "m" []) = none ∧
    (get_cached_response 30 ([] : L2Data Nat) 0 "q" "m" []).1 = none :=
  ⟨(c8_l2_get_put_expiry Nat 30 [] 0 1 0 "p" "m" [] 5).1 (by norm_num),
    ((c8_l2_get_put_expiry Nat 30 [] 0 2592000 0 "p" "m" [] 5).2.1 (by norm_num)).1,
    ((c8_l2_get_put_expiry Nat 30 [] 0 2592000 0 "p" "m" [] 5).2.1 (by norm_num)).2,
    (c8_l2_get_put_expiry Nat 30 [] 0 0 0 "q" "m" [] 5).2.2 rfl⟩

/-- C9: the L2 cache key is a pure function of the prompt, the model and
the decision-relevant kwargs (temperature, max_tokens,
max_completion_tokens): any two kwargs lists with the same decision-relevant
entries yield the same key, and appending arbitrary kwargs outside that
subset never changes the key, so cosmetic parameters cannot fragment the
cache. -/
theorem c9_cache_key_decision_params_only :
    (∀ (prompt model : String) (kw1 kw2 : List (String × JVal)),
        filterDecision kw1 = filterDecision kw2 →
        generate_cache_key prompt model kw1 = generate_cache_key prompt model kw2) ∧
    (∀ (prompt model : String) (kw extra : List (String × JVal)),
        (∀ p ∈ extra, decisionKeys.contains p.1 = false) →
        generate_cache_key prompt model (kw ++ extra) = generate_cache_key prompt model kw) := by
  have hcong : ∀ (prompt model : String) (kw1 kw2 : List (String × JVal)),
      filterDecision kw1 = filterDecision kw2 →
      generate_cache_key prompt model kw1 = generate_cache_key prompt model kw2 := by
    intro p m kw1 kw2 h
    unfold generate_cache_key key_data
    rw [h]
  refine ⟨hcong, ?_⟩
  intro p m kw extra hex
  apply hcong
  show List.filter (fun p => decisionKeys.contains p.1) (kw ++ extra) = filterDecision kw
  rw [List.filter_append]
  have hnil : List.filter (fun p => decisionKeys.contains p.1) extra = [] := by
    rw [List.filter_eq_nil_iff]
    intro a ha
    simpa using hex a ha
  rw [hnil, List.append_nil]
  rfl

theorem c9_cache_key_decision_params_only_witness :
    generate_cache_key "classify this" "gpt-4o" kwWithExtras =
      generate_cache_key "classify this" "gpt-4o" kwDecisionOnly ∧
    generate_cache_key "classify this" "gpt-4o" (kwDecisionOnly ++ [("timeout", .jint 30)]) =
      generate_cache_key "classify this" "gpt-4o" kwDecisionOnly :=
  ⟨(c9_cache_key_decision_params_only).1 "classify this" "gpt-4o" kwWithExtras kwDecisionOnly
      (by decide),
    (c9_cache_key_decision_params_only).2 "classify this" "gpt-4o" kwDecisionOnly
      [("timeout", .jint 30)] (by decide)⟩

end MusicOrganizer
